import Mathlib

/-!
Verification of the conversation-state synchronization engine of the
"Another I" journaling/chat application.

The definitions below are a shallow embedding of the TypeScript source:

* the client page component (folder/conversation store handlers and the
  send-message orchestrator `handleSendMessage`),
* the server routes `/api/chat`, `/api/summarize`, `/api/title`,
* the ChatGPT export parser of the import dialog.

Dates (`Date.now()`, `new Date(...)`) are modelled as `Int` epoch values;
the network boundary of each server route (the three vendor `callX`
functions together with the provider `switch`) is modelled as an oracle
parameter of type `List RoleContent → Except String String`, exactly the
"complete(messages) -> text" capability boundary; `Math.random()*5` is a
`Fin 5` parameter.  `fetch`/JSON transport failure on the client is an
`Option` around the route's response (`none` = the `await` threw and the
client's `catch` runs); note the client never checks `response.ok`, so a
non-2xx route response still travels the `some` path, as in the source.
-/

/-- Message record of the client data model (`{id, role, content, timestamp}`).
Roles are the runtime strings `"user"` / `"assistant"` (the import parser also
meets `"system"`). -/
structure Message where
  id : String
  role : String
  content : String
  timestamp : Int
deriving DecidableEq, Repr

/-- ConversationTag record (`{id, name, color}`). -/
structure ConversationTag where
  id : String
  name : String
  color : String
deriving DecidableEq, Repr

/-- Conversation record of the client data model. -/
structure Conversation where
  id : String
  title : String
  messages : List Message
  documentContent : String
  tags : List ConversationTag
  isPinned : Bool
  createdAt : Int
  updatedAt : Int
deriving DecidableEq, Repr

/-- Folder record (`{id, name, conversations, isExpanded}`). -/
structure Folder where
  id : String
  name : String
  conversations : List Conversation
  isExpanded : Bool
deriving DecidableEq, Repr

/-- The page component's React state that the claims are about:
`folders` and `activeConversationId`. -/
structure AppState where
  folders : List Folder
  activeConversationId : Option String
deriving DecidableEq, Repr

/-- `folders.flatMap(f => f.conversations)` — all conversations of the
collection in folder order. -/
def allConvs (folders : List Folder) : List Conversation :=
  folders.flatMap (fun f => f.conversations)

/-- `folders.flatMap(f => f.conversations).find(c => c.id === convId)` —
how the source looks a conversation up by id (first occurrence). -/
def findConv (folders : List Folder) (convId : String) : Option Conversation :=
  (allConvs folders).find? (fun c => c.id == convId)

/-- The `setFolders(prev => prev.map(folder => ({...folder, conversations:
folder.conversations.map(conv => conv.id === convId ? upd(conv) : conv)})))`
pattern shared by every per-conversation store mutation in the page
component. -/
def updateConvById (folders : List Folder) (convId : String)
    (upd : Conversation → Conversation) : List Folder :=
  folders.map fun folder =>
    { folder with
      conversations := folder.conversations.map fun conv =>
        if conv.id == convId then upd conv else conv }

/-- `content.length > 30 ? content.slice(0, 30) + '...' : content` (the
initial-title truncation in `handleSendMessage`). -/
def truncateTitle (content : String) : String :=
  if content.length > 30 then String.mk (content.toList.take 30) ++ "..." else content

/-- `handleTogglePin` (page component): flip `isPinned` of the targeted
conversation.  The source touches no other field — in particular it does not
touch `updatedAt`. -/
def handleTogglePin (folders : List Folder) (convId : String) : List Folder :=
  updateConvById folders convId fun conv => { conv with isPinned := !conv.isPinned }

/-- `handleAddTag` (page component): append the tag unless one with the same
id is already attached.  No other field is touched. -/
def handleAddTag (folders : List Folder) (convId : String) (tag : ConversationTag) :
    List Folder :=
  updateConvById folders convId fun conv =>
    if conv.tags.any (fun t => t.id == tag.id) then conv
    else { conv with tags := conv.tags ++ [tag] }

/-- `handleRemoveTag` (page component): drop tags with the given id.  No other
field is touched. -/
def handleRemoveTag (folders : List Folder) (convId : String) (tagId : String) :
    List Folder :=
  updateConvById folders convId fun conv =>
    { conv with tags := conv.tags.filter (fun t => !(t.id == tagId)) }

/-- The `setFolders` updater of `handleContentChange` (editor edits): set
`documentContent` and refresh `updatedAt`; no-op when no conversation is
active. -/
def handleContentChange (s : AppState) (content : String) (now : Int) : List Folder :=
  match s.activeConversationId with
  | none => s.folders
  | some convId =>
      updateConvById s.folders convId fun conv =>
        { conv with documentContent := content, updatedAt := now }

/-- The fresh conversation record built by `handleNewConversation`
(`id = conv-Date.now()`, title `新しい会話`). -/
def newConversationAt (now : Int) : Conversation :=
  { id := "conv-" ++ toString now, title := "新しい会話", messages := [],
    documentContent := "", tags := [], isPinned := false,
    createdAt := now, updatedAt := now }

/-- `handleNewConversation` (page component): prepend a fresh conversation to
the *first* folder unless the first folder already holds one with the same id
(`updated[0].conversations.some(c => c.id === newId)`); afterwards
`setActiveConversationId(newId)` runs unconditionally.  An empty folder list
would fault in the source (`updated[0]`) and is left unchanged here. -/
def handleNewConversation (s : AppState) (now : Int) : AppState :=
  match s.folders with
  | [] => s
  | f0 :: rest =>
      let newId := "conv-" ++ toString now
      let folders' :=
        if f0.conversations.any (fun c => c.id == newId) then f0 :: rest
        else { f0 with conversations := newConversationAt now :: f0.conversations } :: rest
      { folders := folders', activeConversationId := some newId }

/-- The fresh folder record built by `handleFolderCreate`
(`id = folder-Date.now()`). -/
def newFolderAt (now : Int) : Folder :=
  { id := "folder-" ++ toString now, name := "新しいフォルダ",
    conversations := [], isExpanded := true }

/-- `handleFolderRename` (page component). -/
def handleFolderRename (folders : List Folder) (folderId name : String) : List Folder :=
  folders.map fun f => if f.id == folderId then { f with name := name } else f

/-- `handleFolderDelete` (page component): rejected when `prev.length <= 1`;
otherwise every folder with the given id is filtered out, and the active
selection is cleared when the (first) folder with that id holds the active
conversation. -/
def handleFolderDelete (s : AppState) (folderId : String) : AppState :=
  if s.folders.length ≤ 1 then s
  else
    let active' :=
      match s.folders.find? (fun f => f.id == folderId) with
      | some f =>
          if f.conversations.any (fun c => some c.id == s.activeConversationId) then none
          else s.activeConversationId
      | none => s.activeConversationId
    { folders := s.folders.filter (fun f => !(f.id == folderId)),
      activeConversationId := active' }

/-- `handleConversationDelete` (page component). -/
def handleConversationDelete (s : AppState) (convId : String) : AppState :=
  { folders := s.folders.map fun f =>
      { f with conversations := f.conversations.filter (fun c => !(c.id == convId)) },
    activeConversationId :=
      if s.activeConversationId == some convId then none else s.activeConversationId }

/-- `handleConversationMove` (page component): every folder containing the id
has it filtered out; the captured `conversation` variable ends up holding the
`find` result of the *last* such folder (it is reassigned on every hit); if
anything was found it is prepended to the target folder's sequence. -/
def handleConversationMove (folders : List Folder) (convId targetFolderId : String) :
    List Folder :=
  let found := (folders.filterMap fun f =>
    f.conversations.find? (fun c => c.id == convId)).getLast?
  let updated := folders.map fun f =>
    if f.conversations.any (fun c => c.id == convId) then
      { f with conversations := f.conversations.filter (fun c => !(c.id == convId)) }
    else f
  match found with
  | none => updated
  | some conversation =>
      updated.map fun f =>
        if f.id == targetFolderId then
          { f with conversations := conversation :: f.conversations }
        else f

/-- `handleImport` (page component): prepend the parsed conversations to the
target folder and select the first imported one. -/
def handleImport (s : AppState) (convs : List Conversation) (targetFolderId : String) :
    AppState :=
  { folders := s.folders.map fun f =>
      if f.id == targetFolderId then { f with conversations := convs ++ f.conversations }
      else f,
    activeConversationId :=
      match convs.head? with
      | some c => some c.id
      | none => s.activeConversationId }

/-- `handleConversationSelect` (page component): switching the displayed
conversation only replaces `activeConversationId`. -/
def handleConversationSelect (s : AppState) (convId : String) : AppState :=
  { s with activeConversationId := some convId }

/-- A `{role, content}` wire message, as sent to the server routes. -/
structure RoleContent where
  role : String
  content : String
deriving DecidableEq, Repr

/-- AI settings record `{provider, apiKey, model}`. -/
structure AISettings where
  provider : String
  apiKey : String
  model : String
deriving DecidableEq, Repr

/-- JSON body of a `/api/chat` response. -/
structure ChatResponse where
  message : String
  isDemo : Bool
  provider : String
  status : Nat
  error : Option String
deriving DecidableEq, Repr

/-- JSON body of a `/api/summarize` response. -/
structure SummarizeResponse where
  summary : String
  isDemo : Bool
  status : Nat
  error : Option String
deriving DecidableEq, Repr

/-- `sub` occurs in `s` — JS `s.includes(sub)`. -/
def strIncludes (s sub : String) : Bool :=
  decide (List.IsInfix sub.toList s.toList)

/-- The five-element `responses` array of `getMockResponse` (chat route). -/
def mockResponses : List String :=
  [ "なるほど、それは大切なポイントですね。もう少し具体的に、どんな状況でそう感じますか？",
    "その考え、よく分かります。整理してみましょう。一番気になっているのはどの部分ですか？",
    "それぞれの選択肢について、メリットとデメリットを書き出してみましょうか？",
    "その気持ち、抱えているのは大変ですよね。優先順位をつけるとしたら、何が一番重要ですか？",
    "なるほど。その中で、今すぐ決めなければいけないことと、後で考えても良いことを分けてみましょう。" ]

/-- Keyword override of `getMockResponse` for 悩/困. -/
def mockOverride1 : String :=
  "その悩み、じっくり一緒に考えましょう。具体的にどんなことで困っていますか？"

/-- Keyword override of `getMockResponse` for 仕事/優先. -/
def mockOverride2 : String :=
  "仕事の優先順位で迷っているんですね。今抱えているタスクを書き出してみましょうか？"

/-- Keyword override of `getMockResponse` for 整理/まとめ. -/
def mockOverride3 : String :=
  "これまでの話を整理してみますね。いくつかの重要なポイントが見えてきました。"

/-- `getMockResponse` (chat route, demo mode): last user message decides a
keyword override, otherwise `responses[Math.floor(Math.random()*5)]`; the
random draw is the `r : Fin 5` parameter. -/
def getMockResponse (messages : List RoleContent) (r : Fin 5) : String :=
  let lastUserMessage :=
    match (messages.filter (fun m => m.role == "user")).getLast? with
    | some m => m.content
    | none => ""
  if strIncludes lastUserMessage "悩" || strIncludes lastUserMessage "困" then
    mockOverride1
  else if strIncludes lastUserMessage "仕事" || strIncludes lastUserMessage "優先" then
    mockOverride2
  else if strIncludes lastUserMessage "整理" || strIncludes lastUserMessage "まとめ" then
    mockOverride3
  else mockResponses.get ⟨r.val, r.isLt⟩

/-- The error body text of the chat route's catch branch (returned with
HTTP 200 so the client displays it). -/
def apiErrorText (e : String) : String :=
  "⚠️ API エラーが発生しました: " ++ e ++
    "\n\n設定を確認してください。長すぎるメッセージの場合は、内容を短くしてお試しください。"

/-- `messages.slice(-n)` guarded by `messages.length > n` — the history cap
applied by both server routes before calling a vendor. -/
def truncateLast (n : Nat) (l : List RoleContent) : List RoleContent :=
  if l.length > n then l.drop (l.length - n) else l

/-- `POST /api/chat`.  `completionCall` is the external completion capability
(the provider `switch` plus the vendor HTTP call; an unknown provider's
`throw` is an `Except.error` outcome).  `!settings?.apiKey` (absent or empty
key) selects demo mode without consulting the capability; a capability error
is converted by the catch branch into a **200** response carrying
`apiErrorText`. -/
def chatRoute (messages : List RoleContent) (settings : Option AISettings)
    (completionCall : List RoleContent → Except String String) (r : Fin 5) :
    ChatResponse :=
  let demo : ChatResponse :=
    { message := getMockResponse messages r, isDemo := true,
      provider := "demo", status := 200, error := none }
  match settings with
  | none => demo
  | some st =>
      if st.apiKey == "" then demo
      else
        match completionCall (truncateLast 20 messages) with
        | .ok m =>
            { message := m, isDemo := false, provider := st.provider,
              status := 200, error := none }
        | .error e =>
            { message := apiErrorText e, isDemo := true, provider := "error",
              status := 200, error := some e }

/-- `generateFallbackSummary` (summarize route): the demo/fallback summary
text.  `userMessages[0]?.content.slice(0, 100) || '不明'` also falls back to
`不明` for an empty sliced string (JS falsiness). -/
def generateFallbackSummary (messages : List RoleContent) : String :=
  if messages.length == 0 then "# 対話サマリー\n\n対話がまだありません。"
  else
    let userMessages := messages.filter (fun m => m.role == "user")
    let firstTopic :=
      match userMessages.head? with
      | some m =>
          let sliced := String.mk (m.content.toList.take 100)
          if sliced == "" then "不明" else sliced
      | none => "不明"
    "# 対話サマリー\n\n## 背景・課題\n" ++ firstTopic ++
      (if firstTopic.length ≥ 100 then "..." else "") ++
      "\n\n## 議論の内容\n- " ++ toString userMessages.length ++
      "件のトピックについて対話\n- 詳細なサマリーにはAPI設定が必要です\n\n## 備考\n設定からAPIキーを登録すると、AIによる詳細なサマリーが生成されます。"

/-- `POST /api/summarize`.  Demo mode returns the fallback summary of the
transcript; a capability failure hits the catch branch, which responds with
status **500** but whose body still carries a summary — the fallback summary
of the **empty** transcript `generateFallbackSummary([])`. -/
def summarizeRoute (messages : List RoleContent) (settings : Option AISettings)
    (summarizeCall : List RoleContent → Except String String) : SummarizeResponse :=
  let demo : SummarizeResponse :=
    { summary := generateFallbackSummary messages, isDemo := true,
      status := 200, error := none }
  match settings with
  | none => demo
  | some st =>
      if st.apiKey == "" then demo
      else
        match summarizeCall (truncateLast 30 messages) with
        | .ok s => { summary := s, isDemo := false, status := 200, error := none }
        | .error e =>
            { summary := generateFallbackSummary [], isDemo := true,
              status := 500, error := some e }

/-- The data a `handleSendMessage` invocation captures at dispatch time and
carries through its async steps: the target conversation id
(`convIdToUpdate`), the optimistic user message, the typed content, and the
stale message snapshot `currentConv?.messages || []` read from the closure's
pre-dispatch `folders`. -/
structure SendDispatch where
  convIdToUpdate : String
  userMessage : Message
  content : String
  snapshotMessages : List Message
deriving DecidableEq, Repr

/-- The per-conversation updater of the optimistic append in
`handleSendMessage`: append the user message, replace a default `新しい会話`
title by the truncated content (when the content is nonempty), refresh
`updatedAt`. -/
def optimisticAppendUpd (userMessage : Message) (content : String) (nowMsg : Int)
    (conv : Conversation) : Conversation :=
  { conv with
    messages := conv.messages ++ [userMessage],
    title :=
      if conv.title == "新しい会話" && !(content == "") then truncateTitle content
      else conv.title,
    updatedAt := nowMsg }

/-- Phase 1 of `handleSendMessage` (synchronous): when nothing is active,
create a conversation exactly as `handleNewConversation` does (first-folder
duplicate check included) and target it; build the user message; append it
optimistically to the captured conversation, replacing a default `新しい会話`
title by the truncated content and refreshing `updatedAt`.  The snapshot is
read from the *pre-dispatch* folders (the React closure variable is stale). -/
def handleSendDispatch (s : AppState) (content : String) (nowConv nowMsg : Int) :
    SendDispatch × AppState :=
  let createStep : String × List Folder × Option String :=
    match s.activeConversationId with
    | some cid => (cid, s.folders, s.activeConversationId)
    | none =>
        let newId := "conv-" ++ toString nowConv
        let newConv : Conversation :=
          { id := newId,
            title := truncateTitle content, messages := [], documentContent := "",
            tags := [], isPinned := false, createdAt := nowConv, updatedAt := nowConv }
        let folders' :=
          match s.folders with
          | [] => s.folders
          | f0 :: rest =>
              if f0.conversations.any (fun c => c.id == newId) then f0 :: rest
              else { f0 with conversations := newConv :: f0.conversations } :: rest
        (newId, folders', some newId)
  let convIdToUpdate := createStep.1
  let userMessage : Message :=
    { id := "msg-" ++ toString nowMsg, role := "user",
      content := content, timestamp := nowMsg }
  let optimistic :=
    updateConvById createStep.2.1 convIdToUpdate (optimisticAppendUpd userMessage content nowMsg)
  let snapshotMessages :=
    match findConv s.folders convIdToUpdate with
    | some c => c.messages
    | none => []
  (⟨convIdToUpdate, userMessage, content, snapshotMessages⟩,
   { folders := optimistic, activeConversationId := createStep.2.2 })

/-- The assistant message built on chat success
(`id = msg-Date.now()-ai`). -/
def mkAiMessage (respMessage : String) (nowAi : Int) : Message :=
  { id := "msg-" ++ toString nowAi ++ "-ai", role := "assistant",
    content := respMessage, timestamp := nowAi }

/-- The success merge of `handleSendMessage`: the captured conversation's
messages are *replaced* by `finalMessages` (snapshot ++ user ++ assistant) and
`updatedAt` is refreshed; keyed by the captured id. -/
def mergeAssistantMessages (folders : List Folder) (convId : String)
    (finalMessages : List Message) (now : Int) : List Folder :=
  updateConvById folders convId fun conv =>
    { conv with messages := finalMessages, updatedAt := now }

/-- The fixed localized apology used by `handleSendMessage`'s catch branch. -/
def apologyText : String :=
  "すみません、接続に問題が発生しました。もう一度お試しください。"

/-- The apology message record (`id = msg-Date.now()-error`). -/
def mkErrorMessage (now : Int) : Message :=
  { id := "msg-" ++ toString now ++ "-error", role := "assistant",
    content := apologyText, timestamp := now }

/-- The catch-branch merge of `handleSendMessage`: append the apology to the
captured conversation's messages.  The source does not refresh `updatedAt`
here. -/
def appendErrorMessage (folders : List Folder) (convId : String) (now : Int) :
    List Folder :=
  updateConvById folders convId fun conv =>
    { conv with messages := conv.messages ++ [mkErrorMessage now] }

/-- Phase 2 of `handleSendMessage`: resolution of the chat fetch.
`chatOutcome = none` models transport failure (`fetch`/`json()` threw), which
runs the catch branch and skips everything after it; `some resp` is any
delivered response body — the client never checks the HTTP status, so a
provider failure converted to a body by the route also travels this path.
The returned `Bool` says whether the summarize step is dispatched next. -/
def handleSendResolve (s : AppState) (d : SendDispatch)
    (chatOutcome : Option ChatResponse) (nowAi : Int) : AppState × Bool :=
  match chatOutcome with
  | some resp =>
      let final := d.snapshotMessages ++ [d.userMessage, mkAiMessage resp.message nowAi]
      ({ s with folders := mergeAssistantMessages s.folders d.convIdToUpdate final nowAi },
       true)
  | none =>
      ({ s with folders := appendErrorMessage s.folders d.convIdToUpdate nowAi }, false)

/-- The summary merge of `handleSendMessage`: write `summaryData.summary` into
`documentContent` of the captured conversation and refresh `updatedAt`. -/
def mergeSummary (folders : List Folder) (convId : String) (summary : String)
    (now : Int) : List Folder :=
  updateConvById folders convId fun conv =>
    { conv with documentContent := summary, updatedAt := now }

/-- Phase 3 of `handleSendMessage`: resolution of the summarize fetch.
`none` is transport failure (inner catch: only logged, no state change);
`some resp` is any delivered body — again no `response.ok` check, so the
route's 500 fallback body is merged like a success. -/
def summaryStep (folders : List Folder) (convId : String)
    (outcome : Option SummarizeResponse) (now : Int) : List Folder :=
  match outcome with
  | none => folders
  | some resp => mergeSummary folders convId resp.summary now

/-- The background title merge of `handleSendMessage`: only an `ok` response
with a truthy (nonempty) title is merged, onto the captured id; `updatedAt` is
not touched. -/
def mergeTitle (folders : List Folder) (convId : String) (title : String) :
    List Folder :=
  updateConvById folders convId fun conv => { conv with title := title }

/-- Resolution of the background title fetch: `none` covers transport failure
and non-ok responses (both leave state alone); a delivered title is merged
only when nonempty. -/
def titleStep (folders : List Folder) (convId : String)
    (outcome : Option String) : List Folder :=
  match outcome with
  | none => folders
  | some title => if title == "" then folders else mergeTitle folders convId title

/-- ChatGPT export: a node's message (`{id, author: {role}, content: {parts},
create_time}`, flattened).  `create_time` is an epoch-seconds number per the
declared interface. -/
structure ChatGPTMessage where
  id : String
  authorRole : String
  contentParts : List String
  create_time : Int
deriving DecidableEq, Repr

/-- ChatGPT export: one entry of the `mapping` record
(`{id, message?, parent?, children}`); `Object.values` iterates entries in
insertion (encounter) order, so the mapping is kept as a list. -/
structure MappingNode where
  id : String
  message : Option ChatGPTMessage
  parent : Option String
  children : List String
deriving DecidableEq, Repr

/-- ChatGPT export: one external conversation record.  `mapping = none`
models a structurally broken record: `Object.values(conv.mapping)` throws in
the source, landing in the per-item catch. -/
structure RawConv where
  id : String
  title : String
  create_time : Int
  update_time : Int
  mapping : Option (List MappingNode)
deriving DecidableEq, Repr

/-- Sort key of the parser's comparator
`(a.message?.create_time || 0) - (b.message?.create_time || 0)`. -/
def nodeKey (n : MappingNode) : Int :=
  match n.message with
  | some m => m.create_time
  | none => 0

/-- The collection filter `node.message?.content?.parts?.length` — the node
has a message with at least one content part. -/
def hasParts (n : MappingNode) : Bool :=
  match n.message with
  | some m => !m.contentParts.isEmpty
  | none => false

/-- Insert into a run sorted by `nodeKey`, before the first strictly larger
key — an element passes a resident exactly when the resident's key is
strictly smaller, so equal keys keep their relative (encounter) order. -/
def insertNode (x : MappingNode) : List MappingNode → List MappingNode
  | [] => [x]
  | y :: ys => if nodeKey x ≤ nodeKey y then x :: y :: ys else y :: insertNode x ys

/-- `nodes.sort((a, b) => key a - key b)` — JS `Array.prototype.sort` is
stable (ES2019), modelled by a stable insertion sort on the key. -/
def sortNodesByTime : List MappingNode → List MappingNode
  | [] => []
  | x :: xs => insertNode x (sortNodesByTime xs)

/-- JS `String.prototype.trim`: strip leading and trailing whitespace
(modelled over the character list; `Char.isWhitespace` covers the ASCII
whitespace the claims exercise). -/
def trimJS (s : String) : String :=
  String.mk (((s.toList.dropWhile Char.isWhitespace).reverse.dropWhile
    Char.isWhitespace).reverse)

/-- The body of the parser's `for (const node of messageNodes)` loop:
skip nodes without a message, skip roles other than user/assistant, join the
parts with newlines and trim, skip empty results, otherwise push a `Message`
stamped `new Date(create_time * 1000)`. -/
def extractMessages : List MappingNode → List Message
  | [] => []
  | node :: rest =>
      match node.message with
      | none => extractMessages rest
      | some msg =>
          if !(msg.authorRole == "user") && !(msg.authorRole == "assistant") then
            extractMessages rest
          else
            let content := trimJS (String.intercalate "\n" msg.contentParts)
            if content == "" then extractMessages rest
            else
              { id := msg.id, role := msg.authorRole, content := content,
                timestamp := msg.create_time * 1000 } :: extractMessages rest

/-- `generateDocumentContent` (import dialog): the deterministic Markdown
document synthesized for an imported conversation; the import timestamp
string (`new Date().toLocaleString('ja-JP')`) is a parameter. -/
def generateDocumentContent (messages : List Message) (title : String)
    (nowStr : String) : String :=
  let userMessages := messages.filter (fun m => m.role == "user")
  let aiMessages := messages.filter (fun m => m.role == "assistant")
  let body := messages.foldl
    (fun acc msg =>
      if msg.role == "user" then acc ++ "### 💭 ユーザー\n\n" ++ msg.content ++ "\n\n"
      else
        acc ++ "> 🤖 **ChatGPT**: " ++ String.mk (msg.content.toList.take 500) ++
          (if msg.content.length > 500 then "..." else "") ++ "\n\n")
    ""
  "# " ++ title ++ "\n\n📅 インポート日時: " ++ nowStr ++
    "\n\n---\n\n## 対話の記録\n\n" ++ body ++ "---\n\n## サマリー\n\n- 📝 " ++
    toString userMessages.length ++ "件のメッセージ\n- 💡 " ++
    toString aiMessages.length ++ "件の応答\n"

/-- Per-item body of `parseChatGPTExport`'s try block: filter mapping nodes to
those with content parts, sort by timestamp, run the extraction loop.  A
broken mapping is the catch path (error). -/
def parseOneConv (conv : RawConv) : Except String (List Message) :=
  match conv.mapping with
  | none => .error ("Failed to parse conversation: " ++ conv.id)
  | some mapping => .ok (extractMessages (sortNodesByTime (mapping.filter hasParts)))

/-- `parseChatGPTExport`: best-effort per item — a parse error is logged and
skipped, a conversation is emitted only when at least one message survived;
`conv.title || '無題の会話'` defaults a blank title. -/
def parseChatGPTExport (data : List RawConv) (nowStr : String) : List Conversation :=
  match data with
  | [] => []
  | conv :: rest =>
      match parseOneConv conv with
      | .error _ => parseChatGPTExport rest nowStr
      | .ok messages =>
          if messages.length > 0 then
            { id := "imported-" ++ conv.id,
              title := if conv.title == "" then "無題の会話" else conv.title,
              messages := messages,
              documentContent := generateDocumentContent messages conv.title nowStr,
              tags := [], isPinned := false,
              createdAt := conv.create_time * 1000,
              updatedAt := conv.update_time * 1000 } :: parseChatGPTExport rest nowStr
          else parseChatGPTExport rest nowStr

/-- The import result shown by `handleFileSelect` after a parsed array
(`imported = conversations.length`, `skipped = data.length -
conversations.length`, `errors: []` on this path), together with the parsed
conversations kept for `handleImportConfirm`. -/
structure ImportOutcome where
  conversations : List Conversation
  success : Bool
  imported : Nat
  skipped : Nat
  errors : List String
deriving DecidableEq, Repr

/-- `handleFileSelect` from the point where the JSON text parsed into an
array (the non-array and unreadable-file failures happen before this stage
and fail the whole import). -/
def importFromData (data : List RawConv) (nowStr : String) : ImportOutcome :=
  let conversations := parseChatGPTExport data nowStr
  { conversations := conversations, success := true,
    imported := conversations.length,
    skipped := data.length - conversations.length,
    errors := [] }

/-- The store/orchestrator operations that mutate the page component's state,
closed under arbitrary parameters (timestamps, payloads); used to describe the
reachable states of the collection. -/
inductive StoreOp where
  | newConversation (now : Int)
  | select (convId : String)
  | folderCreate (now : Int)
  | folderRename (folderId name : String)
  | folderDelete (folderId : String)
  | conversationDelete (convId : String)
  | conversationMove (convId targetFolderId : String)
  | togglePin (convId : String)
  | addTag (convId : String) (tag : ConversationTag)
  | removeTag (convId tagId : String)
  | contentChange (text : String) (now : Int)
  | importConvs (convs : List Conversation) (targetFolderId : String)
  | sendDispatch (content : String) (nowConv nowMsg : Int)
  | chatMerge (convId : String) (finalMessages : List Message) (now : Int)
  | chatError (convId : String) (now : Int)
  | summaryMerge (convId summary : String) (now : Int)
  | titleMerge (convId title : String)

/-- Interpretation of one operation on the page state. -/
def applyOp (s : AppState) (op : StoreOp) : AppState :=
  match op with
  | .newConversation now => handleNewConversation s now
  | .select cid => handleConversationSelect s cid
  | .folderCreate now => { s with folders := s.folders ++ [newFolderAt now] }
  | .folderRename fid name => { s with folders := handleFolderRename s.folders fid name }
  | .folderDelete fid => handleFolderDelete s fid
  | .conversationDelete cid => handleConversationDelete s cid
  | .conversationMove cid tid =>
      { s with folders := handleConversationMove s.folders cid tid }
  | .togglePin cid => { s with folders := handleTogglePin s.folders cid }
  | .addTag cid tag => { s with folders := handleAddTag s.folders cid tag }
  | .removeTag cid tagId => { s with folders := handleRemoveTag s.folders cid tagId }
  | .contentChange text now => { s with folders := handleContentChange s text now }
  | .importConvs convs tid => handleImport s convs tid
  | .sendDispatch content nowConv nowMsg => (handleSendDispatch s content nowConv nowMsg).2
  | .chatMerge cid ms now => { s with folders := mergeAssistantMessages s.folders cid ms now }
  | .chatError cid now => { s with folders := appendErrorMessage s.folders cid now }
  | .summaryMerge cid sm now => { s with folders := mergeSummary s.folders cid sm now }
  | .titleMerge cid t => { s with folders := mergeTitle s.folders cid t }

/-- The initial page state: the single seed folder `folder-1` (`会話`) and no
active conversation. -/
def initialState : AppState :=
  { folders := [{ id := "folder-1", name := "会話", conversations := [], isExpanded := true }],
    activeConversationId := none }

/-- A state reached from the initial state by a sequence of operations. -/
def runOps (ops : List StoreOp) : AppState :=
  ops.foldl applyOp initialState

/-- A folder with the conversations of a given id removed — used to state
frame conditions ("every conversation other than the targeted one is
unchanged"). -/
def restrictAway (cid : String) (f : Folder) : Folder :=
  { f with conversations := f.conversations.filter (fun c => !(c.id == cid)) }

theorem find?_update (l : List Conversation) (cid : String)
    (upd : Conversation → Conversation) (hid : ∀ c, (upd c).id = c.id) :
    (l.map fun c => if c.id == cid then upd c else c).find? (fun c => c.id == cid)
      = (l.find? (fun c => c.id == cid)).map upd := by
  induction l with
  | nil => rfl
  | cons c t ih =>
      simp only [List.map_cons]
      cases hb : (c.id == cid) with
      | true =>
          rw [if_pos rfl]
          rw [@List.find?_cons_of_pos _ (fun c => c.id == cid) (upd c) _
              (by show ((upd c).id == cid) = true; rw [hid]; exact hb)]
          rw [@List.find?_cons_of_pos _ (fun c => c.id == cid) c _ hb]
          rfl
      | false =>
          rw [if_neg (by simp)]
          rw [@List.find?_cons_of_neg _ (fun c => c.id == cid) c _ (by simp [hb]),
            @List.find?_cons_of_neg _ (fun c => c.id == cid) c _ (by simp [hb])]
          exact ih

theorem allConvs_updateConvById (folders : List Folder) (cid : String)
    (upd : Conversation → Conversation) :
    allConvs (updateConvById folders cid upd)
      = (allConvs folders).map (fun c => if c.id == cid then upd c else c) := by
  induction folders with
  | nil => rfl
  | cons f t ih => simp [allConvs, updateConvById, List.map_append] at ih ⊢; exact ih

theorem findConv_updateConvById (folders : List Folder) (cid : String)
    (upd : Conversation → Conversation) (hid : ∀ c, (upd c).id = c.id) :
    findConv (updateConvById folders cid upd) cid = (findConv folders cid).map upd := by
  rw [findConv, allConvs_updateConvById, find?_update _ _ _ hid, findConv]

theorem filter_ne_update (l : List Conversation) (cid : String)
    (upd : Conversation → Conversation) (hid : ∀ c, (upd c).id = c.id) :
    (l.map fun c => if c.id == cid then upd c else c).filter (fun c => !(c.id == cid))
      = l.filter (fun c => !(c.id == cid)) := by
  induction l with
  | nil => rfl
  | cons c t ih =>
      simp only [List.map_cons]
      cases hb : (c.id == cid) with
      | true =>
          rw [if_pos rfl]
          rw [@List.filter_cons_of_neg _ (fun c => !(c.id == cid)) (upd c) _
              (by simp [hid, hb]),
            @List.filter_cons_of_neg _ (fun c => !(c.id == cid)) c _ (by simp [hb])]
          exact ih
      | false =>
          rw [if_neg (by simp)]
          rw [@List.filter_cons_of_pos _ (fun c => !(c.id == cid)) c _ (by simp [hb]),
            @List.filter_cons_of_pos _ (fun c => !(c.id == cid)) c _ (by simp [hb])]
          rw [ih]

theorem restrictAway_updateConvById (folders : List Folder) (cid : String)
    (upd : Conversation → Conversation) (hid : ∀ c, (upd c).id = c.id) :
    (updateConvById folders cid upd).map (restrictAway cid)
      = folders.map (restrictAway cid) := by
  induction folders with
  | nil => rfl
  | cons f t ih =>
      simp only [updateConvById, List.map_cons] at ih ⊢
      rw [ih]
      congr 1
      show restrictAway cid _ = restrictAway cid f
      simp only [restrictAway]
      congr 1
      exact filter_ne_update _ _ _ hid

theorem proj_map_update {α : Type} (proj : Conversation → α) (l : List Conversation)
    (cid : String) (upd : Conversation → Conversation)
    (hp : ∀ c, proj (upd c) = proj c) :
    (l.map fun c => if c.id == cid then upd c else c).map proj = l.map proj := by
  induction l with
  | nil => rfl
  | cons c t ih =>
      simp only [List.map_cons]
      rw [ih]
      congr 1
      cases hb : (c.id == cid) with
      | true => rw [if_pos rfl]; exact hp c
      | false => rw [if_neg (by simp)]

theorem proj_updateConvById {α : Type} (proj : Conversation → α)
    (folders : List Folder) (cid : String) (upd : Conversation → Conversation)
    (hp : ∀ c, proj (upd c) = proj c) :
    (updateConvById folders cid upd).map (fun f => f.conversations.map proj)
      = folders.map (fun f => f.conversations.map proj) := by
  induction folders with
  | nil => rfl
  | cons f t ih =>
      simp only [updateConvById, List.map_cons] at ih ⊢
      rw [ih]
      congr 1
      exact proj_map_update proj _ _ _ hp

theorem mem_insertNode (x : MappingNode) (l : List MappingNode) (y : MappingNode) :
    y ∈ insertNode x l ↔ y = x ∨ y ∈ l := by
  induction l with
  | nil => simp [insertNode]
  | cons z t ih =>
      by_cases h : nodeKey x ≤ nodeKey z
      · simp [insertNode, h]
      · simp [insertNode, h, ih]
        tauto

theorem sorted_insertNode (x : MappingNode) (l : List MappingNode)
    (h : l.Pairwise (fun a b => nodeKey a ≤ nodeKey b)) :
    (insertNode x l).Pairwise (fun a b => nodeKey a ≤ nodeKey b) := by
  induction l with
  | nil => simp [insertNode]
  | cons z t ih =>
      rcases List.pairwise_cons.mp h with ⟨hz, ht⟩
      by_cases hle : nodeKey x ≤ nodeKey z
      · simp only [insertNode, if_pos hle]
        refine List.pairwise_cons.mpr ⟨?_, h⟩
        intro b hb
        rcases List.mem_cons.mp hb with rfl | hbt
        · exact hle
        · exact le_trans hle (hz b hbt)
      · simp only [insertNode, if_neg hle]
        refine List.pairwise_cons.mpr ⟨?_, ih ht⟩
        intro b hb
        rcases (mem_insertNode x t b).mp hb with rfl | hbt
        · exact le_of_lt (lt_of_not_ge hle)
        · exact hz b hbt

theorem sorted_sortNodesByTime (l : List MappingNode) :
    (sortNodesByTime l).Pairwise (fun a b => nodeKey a ≤ nodeKey b) := by
  induction l with
  | nil => simp [sortNodesByTime]
  | cons x t ih => exact sorted_insertNode x _ ih

theorem stable_insertNode (x : MappingNode) (l : List MappingNode) (k : Int) :
    (insertNode x l).filter (fun n => nodeKey n == k)
      = if nodeKey x == k then x :: l.filter (fun n => nodeKey n == k)
        else l.filter (fun n => nodeKey n == k) := by
  induction l with
  | nil => cases hx : nodeKey x == k <;> simp [insertNode, List.filter, hx]
  | cons y t ih =>
      by_cases hle : nodeKey x ≤ nodeKey y
      · cases hx : nodeKey x == k <;>
          cases hy : nodeKey y == k <;>
            simp [insertNode, hle, List.filter_cons, hx, hy]
      · have hlt : nodeKey y < nodeKey x := lt_of_not_ge hle
        cases hy : nodeKey y == k with
        | true =>
            have hyk : nodeKey y = k := beq_iff_eq.mp hy
            have hx : (nodeKey x == k) = false := by
              rw [beq_eq_false_iff_ne]
              omega
            simp [insertNode, hle, List.filter_cons, hy, hx, ih]
        | false =>
            simp [insertNode, hle, List.filter_cons, hy, ih]

theorem stable_sortNodesByTime (l : List MappingNode) (k : Int) :
    (sortNodesByTime l).filter (fun n => nodeKey n == k)
      = l.filter (fun n => nodeKey n == k) := by
  induction l with
  | nil => rfl
  | cons x t ih =>
      cases hx : nodeKey x == k <;>
        simp [sortNodesByTime, stable_insertNode, hx, ih, List.filter_cons]

theorem perm_insertNode (x : MappingNode) (l : List MappingNode) :
    (insertNode x l).Perm (x :: l) := by
  induction l with
  | nil => simp [insertNode]
  | cons y t ih =>
      by_cases h : nodeKey x ≤ nodeKey y
      · simp [insertNode, h]
      · simp only [insertNode, if_neg h]
        exact (ih.cons y).trans (List.Perm.swap x y t)

theorem perm_sortNodesByTime (l : List MappingNode) :
    (sortNodesByTime l).Perm l := by
  induction l with
  | nil => simp [sortNodesByTime]
  | cons x t ih => exact (perm_insertNode x _).trans (ih.cons x)

/-- The role restriction of §4.2 step 3, as a predicate on nodes. -/
def isKeptRole (n : MappingNode) : Bool :=
  match n.message with
  | some m => m.authorRole == "user" || m.authorRole == "assistant"
  | none => false

/-- §4.2 step 4 as a per-node transform: join the parts with newlines, trim,
drop when empty. -/
def nodeToMessage (n : MappingNode) : Option Message :=
  match n.message with
  | none => none
  | some msg =>
      let content := trimJS (String.intercalate "\n" msg.contentParts)
      if content == "" then none
      else some { id := msg.id, role := msg.authorRole, content := content,
                  timestamp := msg.create_time * 1000 }

/-- The claim-side description of the emitted message sequence, following the
spec's wording of §4.2 steps 1–4: collect the mapping nodes having a message
with at least one content part, stable-sort by origin timestamp ascending,
restrict to user/assistant roles, then join-trim and drop empties. -/
def specMessageSequence (mapping : List MappingNode) : List Message :=
  ((sortNodesByTime (mapping.filter hasParts)).filter isKeptRole).filterMap nodeToMessage

theorem extractMessages_eq_filterMap (l : List MappingNode) :
    extractMessages l = (l.filter isKeptRole).filterMap nodeToMessage := by
  induction l with
  | nil => rfl
  | cons n t ih =>
      cases hm : n.message with
      | none =>
          have hk : isKeptRole n = false := by simp [isKeptRole, hm]
          simp [extractMessages, hm, List.filter_cons, hk, ih]
      | some msg =>
          cases hrole : (msg.authorRole == "user" || msg.authorRole == "assistant") with
          | false =>
              have hk : isKeptRole n = false := by simp [isKeptRole, hm, hrole]
              have hcond : (!(msg.authorRole == "user") && !(msg.authorRole == "assistant")) = true := by
                simp only [← Bool.not_or, hrole]
                rfl
              simp [extractMessages, hm, hcond, List.filter_cons, hk, ih]
          | true =>
              have hk : isKeptRole n = true := by simp [isKeptRole, hm, hrole]
              have hcond : (!(msg.authorRole == "user") && !(msg.authorRole == "assistant")) = false := by
                simp only [← Bool.not_or, hrole]
                rfl
              cases hc : (trimJS (String.intercalate "\n" msg.contentParts) == "") with
              | true =>
                  simp [extractMessages, hm, hcond, hc, List.filter_cons, hk,
                    List.filterMap_cons, nodeToMessage, ih]
              | false =>
                  simp [extractMessages, hm, hcond, hc, List.filter_cons, hk,
                    List.filterMap_cons, nodeToMessage, ih]

/-- Concrete fixture: a conversation last updated at instant 0. -/
def convC2 : Conversation :=
  { id := "c1", title := "旅行の計画", messages := [], documentContent := "メモ",
    tags := [{ id := "t1", name := "旅行", color := "blue" }], isPinned := false,
    createdAt := 0, updatedAt := 0 }

/-- Concrete fixture: a single folder holding `convC2`. -/
def foldersC2 : List Folder :=
  [{ id := "f1", name := "会話", conversations := [convC2], isExpanded := true }]

/-- Concrete fixture: a tag not attached to `convC2`. -/
def tagEx : ConversationTag := { id := "t9", name := "仕事", color := "red" }

/-- C2 counterexample: `handleTogglePin` applied to the conversation last
updated at instant 0 returns it with only `isPinned` flipped — `updatedAt`
remains 0, so a pin toggle performed at any later instant (e.g. 1) does not
refresh it.  This refutes the claim that every listed mutation (here
`setPinned`) refreshes the target's `updatedAt`; the same holds for
`handleAddTag`, `handleRemoveTag` and the title merge, whose source updaters
likewise never touch `updatedAt`. -/
theorem togglePin_does_not_refresh_updatedAt :
    findConv (handleTogglePin foldersC2 "c1") "c1" = some { convC2 with isPinned := true }
    ∧ (findConv (handleTogglePin foldersC2 "c1") "c1").map (fun c => c.updatedAt) = some 0
    ∧ ¬ (findConv (handleTogglePin foldersC2 "c1") "c1").map (fun c => c.updatedAt) = some 1 := by
  decide

/-- C2 (amended): effect of each store mutation on an existing conversation.
`appendMessages` (the assistant-merge updater) and `setDocumentContent` (the
summary-merge updater) replace their field AND refresh `updatedAt`;
`setPinned`, `addTag`, `removeTag` and `setTitle` change only their targeted
field and leave `updatedAt` (and everything else) unchanged.  In all six
cases every conversation other than the targeted one is unchanged (the
`restrictAway` frame equalities). -/
theorem store_mutations_field_effects
    (folders : List Folder) (cid : String) (c0 : Conversation)
    (tag : ConversationTag) (tagId text title : String)
    (msgs : List Message) (now : Int)
    (hFind : findConv folders cid = some c0) :
    findConv (handleTogglePin folders cid) cid = some { c0 with isPinned := !c0.isPinned }
    ∧ findConv (handleAddTag folders cid tag) cid
        = some (if c0.tags.any (fun t => t.id == tag.id) then c0
                else { c0 with tags := c0.tags ++ [tag] })
    ∧ findConv (handleRemoveTag folders cid tagId) cid
        = some { c0 with tags := c0.tags.filter (fun t => !(t.id == tagId)) }
    ∧ findConv (mergeSummary folders cid text now) cid
        = some { c0 with documentContent := text, updatedAt := now }
    ∧ findConv (mergeAssistantMessages folders cid msgs now) cid
        = some { c0 with messages := msgs, updatedAt := now }
    ∧ findConv (mergeTitle folders cid title) cid = some { c0 with title := title }
    ∧ (handleTogglePin folders cid).map (restrictAway cid)
        = folders.map (restrictAway cid)
    ∧ (handleAddTag folders cid tag).map (restrictAway cid)
        = folders.map (restrictAway cid)
    ∧ (handleRemoveTag folders cid tagId).map (restrictAway cid)
        = folders.map (restrictAway cid)
    ∧ (mergeSummary folders cid text now).map (restrictAway cid)
        = folders.map (restrictAway cid)
    ∧ (mergeAssistantMessages folders cid msgs now).map (restrictAway cid)
        = folders.map (restrictAway cid)
    ∧ (mergeTitle folders cid title).map (restrictAway cid)
        = folders.map (restrictAway cid) := by
  have hidAdd : ∀ c : Conversation,
      ((if c.tags.any (fun t => t.id == tag.id) then c
        else { c with tags := c.tags ++ [tag] }) : Conversation).id = c.id := by
    intro c
    split <;> rfl
  refine ⟨?_, ?_, ?_, ?_, ?_, ?_, ?_, ?_, ?_, ?_, ?_, ?_⟩
  · have h := findConv_updateConvById folders cid
      (fun conv => { conv with isPinned := !conv.isPinned }) (fun c => rfl)
    rw [handleTogglePin, h, hFind]
    rfl
  · have h := findConv_updateConvById folders cid
      (fun conv =>
        if conv.tags.any (fun t => t.id == tag.id) then conv
        else { conv with tags := conv.tags ++ [tag] }) hidAdd
    rw [handleAddTag, h, hFind]
    rfl
  · have h := findConv_updateConvById folders cid
      (fun conv => { conv with tags := conv.tags.filter (fun t => !(t.id == tagId)) })
      (fun c => rfl)
    rw [handleRemoveTag, h, hFind]
    rfl
  · have h := findConv_updateConvById folders cid
      (fun conv => { conv with documentContent := text, updatedAt := now }) (fun c => rfl)
    rw [mergeSummary, h, hFind]
    rfl
  · have h := findConv_updateConvById folders cid
      (fun conv => { conv with messages := msgs, updatedAt := now }) (fun c => rfl)
    rw [mergeAssistantMessages, h, hFind]
    rfl
  · have h := findConv_updateConvById folders cid
      (fun conv => { conv with title := title }) (fun c => rfl)
    rw [mergeTitle, h, hFind]
    rfl
  · rw [handleTogglePin]
    exact restrictAway_updateConvById folders cid
      (fun conv => { conv with isPinned := !conv.isPinned }) (fun c => rfl)
  · rw [handleAddTag]
    exact restrictAway_updateConvById folders cid
      (fun conv =>
        if conv.tags.any (fun t => t.id == tag.id) then conv
        else { conv with tags := conv.tags ++ [tag] }) hidAdd
  · rw [handleRemoveTag]
    exact restrictAway_updateConvById folders cid
      (fun conv => { conv with tags := conv.tags.filter (fun t => !(t.id == tagId)) })
      (fun c => rfl)
  · rw [mergeSummary]
    exact restrictAway_updateConvById folders cid
      (fun conv => { conv with documentContent := text, updatedAt := now }) (fun c => rfl)
  · rw [mergeAssistantMessages]
    exact restrictAway_updateConvById folders cid
      (fun conv => { conv with messages := msgs, updatedAt := now }) (fun c => rfl)
  · rw [mergeTitle]
    exact restrictAway_updateConvById folders cid
      (fun conv => { conv with title := title }) (fun c => rfl)

/-- Witness for the amended C2 theorem at a concrete store. -/
theorem store_mutations_field_effects_instance :
    findConv (mergeSummary foldersC2 "c1" "新しい本文" 5) "c1"
      = some { convC2 with documentContent := "新しい本文", updatedAt := 5 } :=
  (store_mutations_field_effects foldersC2 "c1" convC2 tagEx "t1" "新しい本文" "新題"
    [] 5 (by decide)).2.2.2.1

/-- C1: a send-message invocation dispatched while conversation `A` is active
captures `A`; after the user switches the active conversation to any `B`, the
completion resolution still merges into `A` — the assistant message is
appended after the optimistically-appended user message of `A` — while every
conversation with a different id (in particular `B`) is left unchanged, and
the merged folders do not depend on the active id at resolution time. -/
theorem sendMessage_appends_to_captured_conversation
    (s : AppState) (A B content : String) (resp : ChatResponse)
    (nowConv nowMsg nowAi : Int) (c0 : Conversation)
    (hActive : s.activeConversationId = some A)
    (hFind : findConv s.folders A = some c0) :
    let d := (handleSendDispatch s content nowConv nowMsg).1
    let s1 := (handleSendDispatch s content nowConv nowMsg).2
    let s2 := handleConversationSelect s1 B
    let s3 := (handleSendResolve s2 d (some resp) nowAi).1
    d.convIdToUpdate = A
    ∧ s2.activeConversationId = some B
    ∧ s3.folders = (handleSendResolve s1 d (some resp) nowAi).1.folders
    ∧ s3.folders.map (restrictAway A) = s1.folders.map (restrictAway A)
    ∧ s1.folders.map (restrictAway A) = s.folders.map (restrictAway A)
    ∧ (findConv s3.folders A).map (fun c => c.messages)
        = some (c0.messages ++ [d.userMessage, mkAiMessage resp.message nowAi]) := by
  simp only [handleSendDispatch, hActive, hFind, handleConversationSelect,
    handleSendResolve, mergeAssistantMessages]
  refine ⟨trivial, trivial, trivial, ?_, ?_, ?_⟩
  · apply restrictAway_updateConvById
    intro c
    rfl
  · apply restrictAway_updateConvById
    intro c
    rfl
  · have huser : ∀ c : Conversation,
        (optimisticAppendUpd
          { id := "msg-" ++ toString nowMsg, role := "user", content := content,
            timestamp := nowMsg } content nowMsg c).id = c.id := fun c => rfl
    have h1 := findConv_updateConvById
      (updateConvById s.folders A
        (optimisticAppendUpd
          { id := "msg-" ++ toString nowMsg, role := "user", content := content,
            timestamp := nowMsg } content nowMsg)) A
      (fun conv =>
        { conv with
          messages := c0.messages ++
            [{ id := "msg-" ++ toString nowMsg, role := "user", content := content,
               timestamp := nowMsg }, mkAiMessage resp.message nowAi],
          updatedAt := nowAi })
      (fun c => rfl)
    have h2 := findConv_updateConvById s.folders A
      (optimisticAppendUpd
        { id := "msg-" ++ toString nowMsg, role := "user", content := content,
          timestamp := nowMsg } content nowMsg) huser
    rw [h1, h2, hFind]
    rfl

/-- Concrete fixture for C1: conversation `A` with one prior user message. -/
def convA : Conversation :=
  { id := "A", title := "甲の話",
    messages := [{ id := "m0", role := "user", content := "前の発言", timestamp := 1 }],
    documentContent := "", tags := [], isPinned := false, createdAt := 0, updatedAt := 1 }

/-- Concrete fixture for C1: conversation `B` in another folder. -/
def convB : Conversation :=
  { id := "B", title := "乙の話", messages := [], documentContent := "乙のメモ",
    tags := [], isPinned := false, createdAt := 0, updatedAt := 0 }

/-- Concrete fixture for C1: two folders, `A` active. -/
def sC1 : AppState :=
  { folders :=
      [ { id := "f1", name := "会話", conversations := [convA], isExpanded := true },
        { id := "f2", name := "仕事", conversations := [convB], isExpanded := true } ],
    activeConversationId := some "A" }

/-- Concrete fixture for C1: a successful completion response. -/
def respC1 : ChatResponse :=
  { message := "応答です", isDemo := false, provider := "openai", status := 200,
    error := none }

/-- Witness for C1 at the concrete two-folder state `sC1`. -/
theorem sendMessage_appends_to_captured_conversation_instance :
    let d := (handleSendDispatch sC1 "今日の予定" 3 4).1
    let s1 := (handleSendDispatch sC1 "今日の予定" 3 4).2
    let s2 := handleConversationSelect s1 "B"
    let s3 := (handleSendResolve s2 d (some respC1) 9).1
    d.convIdToUpdate = "A"
    ∧ s2.activeConversationId = some "B"
    ∧ s3.folders = (handleSendResolve s1 d (some respC1) 9).1.folders
    ∧ s3.folders.map (restrictAway "A") = s1.folders.map (restrictAway "A")
    ∧ s1.folders.map (restrictAway "A") = sC1.folders.map (restrictAway "A")
    ∧ (findConv s3.folders "A").map (fun c => c.messages)
        = some (convA.messages ++ [d.userMessage, mkAiMessage respC1.message 9]) :=
  sendMessage_appends_to_captured_conversation sC1 "A" "B" "今日の予定" respC1 3 4 9 convA
    rfl (by decide)

/-- Concrete fixture: configured AI settings. -/
def stEx : AISettings := { provider := "openai", apiKey := "sk-test", model := "gpt-4o" }

/-- Concrete fixture: a conversation with an existing document. -/
def convDoc : Conversation :=
  { id := "c1", title := "相談", messages := [], documentContent := "大事なメモ",
    tags := [], isPinned := false, createdAt := 0, updatedAt := 0 }

/-- Concrete fixture: a single folder holding `convDoc`. -/
def foldersDoc : List Folder :=
  [{ id := "f1", name := "会話", conversations := [convDoc], isExpanded := true }]

/-- C3 counterexample: a provider-level summarization failure does not leave
`documentContent` unchanged.  The route's catch responds with status 500 but
its body carries `generateFallbackSummary([])`; the client never checks
`response.ok` and merges that summary, replacing the existing document. -/
theorem summarize_provider_failure_overwrites_document :
    let resp := summarizeRoute [{ role := "user", content := "こんにちは" }]
      (some stEx) (fun _ => .error "boom")
    resp.status = 500
    ∧ (findConv (summaryStep foldersDoc "c1" (some resp) 7) "c1").map
        (fun c => c.documentContent) = some "# 対話サマリー\n\n対話がまだありません。"
    ∧ ¬ (findConv (summaryStep foldersDoc "c1" (some resp) 7) "c1").map
        (fun c => c.documentContent) = some "大事なメモ" := by
  decide

/-- C3 (amended): only a *transport* failure of the summarize fetch leaves
`documentContent` byte-for-byte unchanged (the inner catch only logs).  A
*provider* failure makes the route answer 500 with the canned
empty-transcript fallback summary, which the client then writes into
`documentContent` (refreshing `updatedAt`).  In both cases no message is
added anywhere — the failure is not surfaced in the transcript. -/
theorem summarize_failure_modes
    (folders : List Folder) (cid : String) (c0 : Conversation)
    (messages : List RoleContent) (st : AISettings) (e : String) (now : Int)
    (hKey : ¬ st.apiKey = "")
    (hFind : findConv folders cid = some c0) :
    summaryStep folders cid none now = folders
    ∧ summarizeRoute messages (some st) (fun _ => .error e)
        = { summary := generateFallbackSummary [], isDemo := true,
            status := 500, error := some e }
    ∧ findConv (summaryStep folders cid
          (some (summarizeRoute messages (some st) (fun _ => .error e))) now) cid
        = some { c0 with documentContent := generateFallbackSummary [], updatedAt := now }
    ∧ (summaryStep folders cid
          (some (summarizeRoute messages (some st) (fun _ => .error e))) now).map
            (fun f => f.conversations.map (fun c => c.messages))
        = folders.map (fun f => f.conversations.map (fun c => c.messages)) := by
  have hroute : summarizeRoute messages (some st) (fun _ => .error e)
      = { summary := generateFallbackSummary [], isDemo := true,
          status := 500, error := some e } := by
    rw [summarizeRoute, beq_eq_false_iff_ne.mpr hKey]
    rfl
  refine ⟨rfl, hroute, ?_, ?_⟩
  · rw [hroute]
    have h := findConv_updateConvById folders cid
      (fun conv => { conv with
        documentContent := generateFallbackSummary [],
        updatedAt := now }) (fun c => rfl)
    show findConv (mergeSummary folders cid (generateFallbackSummary []) now) cid = _
    rw [mergeSummary, h, hFind]
    rfl
  · rw [hroute]
    show (mergeSummary folders cid (generateFallbackSummary []) now).map _ = _
    rw [mergeSummary]
    exact proj_updateConvById (fun c => c.messages) folders cid
      (fun conv => { conv with
        documentContent := generateFallbackSummary [],
        updatedAt := now }) (fun c => rfl)

/-- Witness for the amended C3 theorem at a concrete store. -/
theorem summarize_failure_modes_instance :
    summaryStep foldersDoc "c1" none 7 = foldersDoc
    ∧ summarizeRoute [{ role := "user", content := "こんにちは" }] (some stEx)
        (fun _ => .error "boom")
      = { summary := generateFallbackSummary [], isDemo := true,
          status := 500, error := some "boom" }
    ∧ findConv (summaryStep foldersDoc "c1"
          (some (summarizeRoute [{ role := "user", content := "こんにちは" }] (some stEx)
            (fun _ => .error "boom"))) 7) "c1"
        = some { convDoc with documentContent := generateFallbackSummary [], updatedAt := 7 }
    ∧ (summaryStep foldersDoc "c1"
          (some (summarizeRoute [{ role := "user", content := "こんにちは" }] (some stEx)
            (fun _ => .error "boom"))) 7).map
            (fun f => f.conversations.map (fun c => c.messages))
        = foldersDoc.map (fun f => f.conversations.map (fun c => c.messages)) :=
  summarize_failure_modes foldersDoc "c1" convDoc
    [{ role := "user", content := "こんにちは" }] stEx "boom" 7
    (by decide) (by decide)

/-- C4 counterexample: a provider-level completion failure is converted by the
chat route into a 200 body whose `message` is the dynamic `apiErrorText` — not
the fixed apology — and the client, which never checks `response.ok`, appends
it as the assistant turn and still dispatches summarization (`r.2 = true`). -/
theorem chat_provider_failure_not_apology :
    let ds := handleSendDispatch { folders := foldersDoc, activeConversationId := some "c1" }
      "こんにちは" 3 4
    let resp := chatRoute [{ role := "user", content := "こんにちは" }] (some stEx)
      (fun _ => .error "boom") 0
    let r := handleSendResolve ds.2 ds.1 (some resp) 9
    r.2 = true
    ∧ resp.message = apiErrorText "boom"
    ∧ ¬ resp.message = apologyText
    ∧ (findConv r.1.folders "c1").map (fun c => c.messages.map (fun m => m.content))
        = some ["こんにちは", apiErrorText "boom"] := by
  decide

/-- C4 (amended): only a *transport* failure of the chat fetch makes the
orchestrator append the fixed localized apology to the captured conversation
and skip summarization.  A *provider* failure is answered by the route with
HTTP 200 and `apiErrorText`; the client appends that text as the assistant
turn of the captured conversation and the summarization step IS dispatched. -/
theorem chat_failure_modes
    (s : AppState) (d : SendDispatch) (c0 : Conversation)
    (messages : List RoleContent) (st : AISettings) (e : String)
    (r : Fin 5) (nowAi : Int)
    (hKey : ¬ st.apiKey = "")
    (hFind : findConv s.folders d.convIdToUpdate = some c0) :
    (handleSendResolve s d none nowAi).2 = false
    ∧ findConv (handleSendResolve s d none nowAi).1.folders d.convIdToUpdate
        = some { c0 with messages := c0.messages ++ [mkErrorMessage nowAi] }
    ∧ (handleSendResolve s d none nowAi).1.folders.map (restrictAway d.convIdToUpdate)
        = s.folders.map (restrictAway d.convIdToUpdate)
    ∧ chatRoute messages (some st) (fun _ => .error e) r
        = { message := apiErrorText e, isDemo := true, provider := "error",
            status := 200, error := some e }
    ∧ (handleSendResolve s d
        (some (chatRoute messages (some st) (fun _ => .error e) r)) nowAi).2 = true
    ∧ findConv (handleSendResolve s d
          (some (chatRoute messages (some st) (fun _ => .error e) r)) nowAi).1.folders
          d.convIdToUpdate
        = some { c0 with
            messages := d.snapshotMessages ++
              [d.userMessage, mkAiMessage (apiErrorText e) nowAi],
            updatedAt := nowAi } := by
  have hroute : chatRoute messages (some st) (fun _ => .error e) r
      = { message := apiErrorText e, isDemo := true, provider := "error",
          status := 200, error := some e } := by
    rw [chatRoute, beq_eq_false_iff_ne.mpr hKey]
    rfl
  refine ⟨rfl, ?_, ?_, hroute, rfl, ?_⟩
  · have h := findConv_updateConvById s.folders d.convIdToUpdate
      (fun conv => { conv with messages := conv.messages ++ [mkErrorMessage nowAi] })
      (fun c => rfl)
    show findConv (appendErrorMessage s.folders d.convIdToUpdate nowAi) d.convIdToUpdate = _
    rw [appendErrorMessage, h, hFind]
    rfl
  · show (appendErrorMessage s.folders d.convIdToUpdate nowAi).map _ = _
    rw [appendErrorMessage]
    exact restrictAway_updateConvById s.folders d.convIdToUpdate
      (fun conv => { conv with messages := conv.messages ++ [mkErrorMessage nowAi] })
      (fun c => rfl)
  · rw [hroute]
    have h := findConv_updateConvById s.folders d.convIdToUpdate
      (fun conv => { conv with
        messages := d.snapshotMessages ++
          [d.userMessage, mkAiMessage (apiErrorText e) nowAi],
        updatedAt := nowAi }) (fun c => rfl)
    show findConv (mergeAssistantMessages s.folders d.convIdToUpdate
      (d.snapshotMessages ++ [d.userMessage, mkAiMessage (apiErrorText e) nowAi]) nowAi)
      d.convIdToUpdate = _
    rw [mergeAssistantMessages, h, hFind]
    rfl

/-- Concrete fixture for C4: the optimistic user message. -/
def userMsgC4 : Message :=
  { id := "msg-4", role := "user", content := "こんにちは", timestamp := 4 }

/-- Concrete fixture for C4: the captured dispatch data. -/
def dispatchC4 : SendDispatch :=
  { convIdToUpdate := "c1", userMessage := userMsgC4, content := "こんにちは",
    snapshotMessages := [] }

/-- Witness for the amended C4 theorem at a concrete state. -/
theorem chat_failure_modes_instance :
    let s : AppState := { folders := foldersDoc, activeConversationId := some "c1" }
    let d : SendDispatch := dispatchC4
    (handleSendResolve s d none 9).2 = false
    ∧ findConv (handleSendResolve s d none 9).1.folders "c1"
        = some { convDoc with messages := convDoc.messages ++ [mkErrorMessage 9] }
    ∧ (handleSendResolve s d none 9).1.folders.map (restrictAway "c1")
        = s.folders.map (restrictAway "c1")
    ∧ chatRoute [{ role := "user", content := "こんにちは" }] (some stEx)
        (fun _ => .error "boom") 0
        = { message := apiErrorText "boom", isDemo := true, provider := "error",
            status := 200, error := some "boom" }
    ∧ (handleSendResolve s d
        (some (chatRoute [{ role := "user", content := "こんにちは" }] (some stEx)
          (fun _ => .error "boom") 0)) 9).2 = true
    ∧ findConv (handleSendResolve s d
          (some (chatRoute [{ role := "user", content := "こんにちは" }] (some stEx)
            (fun _ => .error "boom") 0)) 9).1.folders "c1"
        = some { convDoc with
            messages := [userMsgC4, mkAiMessage (apiErrorText "boom") 9],
            updatedAt := 9 } :=
  chat_failure_modes { folders := foldersDoc, activeConversationId := some "c1" }
    dispatchC4
    convDoc [{ role := "user", content := "こんにちは" }] stEx "boom" 0 9
    (by decide) (by decide)

/-- Concrete fixture for the import claims: a mapping (in scrambled encounter
order) with one message-less root node, three valid user/assistant nodes
(timestamps 10, 20, 30; one multi-part, one needing a trim) and one
system-role node. -/
def exampleNodes : List MappingNode :=
  [ { id := "root", message := none, parent := none, children := ["n1"] },
    { id := "n3",
      message := some
        { id := "m3",
          authorRole := "assistant",
          contentParts := ["やあ", "元気？"],
          create_time := 20 },
      parent := some "n1", children := [] },
    { id := "n1",
      message := some
        { id := "m1",
          authorRole := "user",
          contentParts := ["こんにちは"],
          create_time := 10 },
      parent := some "root", children := ["n3"] },
    { id := "n4",
      message := some
        { id := "m4",
          authorRole := "user",
          contentParts := ["  元気だよ  "],
          create_time := 30 },
      parent := some "n3", children := [] },
    { id := "n2",
      message := some
        { id := "m2",
          authorRole := "system",
          contentParts := ["プロンプト"],
          create_time := 5 },
      parent := none, children := [] } ]

/-- Concrete fixture: a well-formed external conversation record. -/
def exampleConv : RawConv :=
  { id := "ext-1", title := "テスト会話", create_time := 1, update_time := 2,
    mapping := some exampleNodes }

/-- The message sequence the parser must emit for `exampleConv`. -/
def exampleMessages : List Message :=
  [ { id := "m1", role := "user", content := "こんにちは", timestamp := 10000 },
    { id := "m3", role := "assistant", content := "やあ\n元気？", timestamp := 20000 },
    { id := "m4", role := "user", content := "元気だよ", timestamp := 30000 } ]

/-- C9: the emitted message sequence is exactly the spec-described pipeline —
the sort is ascending in the origin timestamp (`Pairwise`), keeps encounter
order on ties (the per-key filter is unchanged), and is a permutation of its
input; the extraction loop equals role-restriction followed by
join/trim/drop; and on the concrete 3-valid-nodes + 1-system-node example
the parser yields exactly one conversation with the three expected messages,
`importedCount = 1` and `skippedCount = 0`. -/
theorem export_parser_pipeline :
    (∀ l : List MappingNode,
      (sortNodesByTime l).Pairwise (fun a b => nodeKey a ≤ nodeKey b))
    ∧ (∀ (l : List MappingNode) (k : Int),
      (sortNodesByTime l).filter (fun n => nodeKey n == k)
        = l.filter (fun n => nodeKey n == k))
    ∧ (∀ l : List MappingNode, (sortNodesByTime l).Perm l)
    ∧ (∀ mapping : List MappingNode,
      extractMessages (sortNodesByTime (mapping.filter hasParts))
        = specMessageSequence mapping)
    ∧ (parseChatGPTExport [exampleConv] "2025/1/1 0:00").map
        (fun c => (c.id, c.title, c.messages))
        = [("imported-ext-1", "テスト会話", exampleMessages)]
    ∧ (importFromData [exampleConv] "2025/1/1 0:00").imported = 1
    ∧ (importFromData [exampleConv] "2025/1/1 0:00").skipped = 0 := by
  refine ⟨sorted_sortNodesByTime, stable_sortNodesByTime, perm_sortNodesByTime,
    ?_, by decide, by decide, by decide⟩
  intro mapping
  rw [specMessageSequence, extractMessages_eq_filterMap]

/-- Concrete fixture: a structurally malformed external record (its `mapping`
is missing, so `Object.values(conv.mapping)` throws in the source). -/
def malformedConv : RawConv :=
  { id := "bad-1", title := "壊れた", create_time := 1, update_time := 1,
    mapping := none }

/-- C5 counterexample: importing one malformed and one well-formed record
yields exactly the well-formed conversation, but the `errors` list stays
empty — the claim's required error entry for the malformed record is never
recorded (it is only counted in `skipped`). -/
theorem import_malformed_record_not_in_errors :
    (importFromData [malformedConv, exampleConv] "2025/1/1 0:00").errors = []
    ∧ ¬ 1 ≤ (importFromData [malformedConv, exampleConv] "2025/1/1 0:00").errors.length
    ∧ (importFromData [malformedConv, exampleConv] "2025/1/1 0:00").conversations.map
        (fun c => c.id) = ["imported-ext-1"]
    ∧ (importFromData [malformedConv, exampleConv] "2025/1/1 0:00").skipped = 1 := by
  decide

/-- C5 (amended): import is best-effort per item — a malformed record is
skipped silently (the per-item catch only logs), the result contains exactly
the conversations parsed from the remaining records, and the malformed record
is reflected only in `skippedCount`; the `errors` list stays empty on this
path (it is used only for whole-file failures). -/
theorem import_best_effort_behavior
    (conv : RawConv) (rest data : List RawConv) (nowStr : String)
    (hBad : conv.mapping = none) :
    parseChatGPTExport (conv :: rest) nowStr = parseChatGPTExport rest nowStr
    ∧ (importFromData data nowStr).errors = []
    ∧ (importFromData data nowStr).conversations = parseChatGPTExport data nowStr
    ∧ (importFromData data nowStr).imported = (parseChatGPTExport data nowStr).length
    ∧ (importFromData data nowStr).skipped
        = data.length - (parseChatGPTExport data nowStr).length := by
  refine ⟨?_, rfl, rfl, rfl, rfl⟩
  rw [parseChatGPTExport, parseOneConv, hBad]

/-- Witness for the amended C5 theorem at the concrete two-record input. -/
theorem import_best_effort_behavior_instance :
    parseChatGPTExport [malformedConv, exampleConv] "2025/1/1 0:00"
        = parseChatGPTExport [exampleConv] "2025/1/1 0:00"
    ∧ (importFromData [malformedConv, exampleConv] "2025/1/1 0:00").errors = []
    ∧ (importFromData [malformedConv, exampleConv] "2025/1/1 0:00").conversations
        = parseChatGPTExport [malformedConv, exampleConv] "2025/1/1 0:00"
    ∧ (importFromData [malformedConv, exampleConv] "2025/1/1 0:00").imported
        = (parseChatGPTExport [malformedConv, exampleConv] "2025/1/1 0:00").length
    ∧ (importFromData [malformedConv, exampleConv] "2025/1/1 0:00").skipped
        = [malformedConv, exampleConv].length
          - (parseChatGPTExport [malformedConv, exampleConv] "2025/1/1 0:00").length :=
  import_best_effort_behavior malformedConv [exampleConv]
    [malformedConv, exampleConv] "2025/1/1 0:00" rfl

theorem length_le_filter_ne_folder (l : List Folder) (fid : String)
    (hnd : (l.map (fun f => f.id)).Nodup) :
    l.length ≤ (l.filter (fun f => !(f.id == fid))).length + 1 := by
  induction l with
  | nil => simp
  | cons f t ih =>
      simp only [List.map_cons, List.nodup_cons] at hnd
      obtain ⟨hmem, hnd'⟩ := hnd
      by_cases h : f.id = fid
      · have hall : t.filter (fun g => !(g.id == fid)) = t := by
          apply List.filter_eq_self.mpr
          intro g hg
          have hne : ¬ g.id = fid := by
            intro he
            apply hmem
            rw [h, ← he]
            exact List.mem_map_of_mem (fun f => f.id) hg
          simp [hne]
        rw [@List.filter_cons_of_neg _ (fun f => !(f.id == fid)) f t (by simp [h]), hall]
        simp
      · rw [@List.filter_cons_of_pos _ (fun f => !(f.id == fid)) f t (by simp [h])]
        have := ih hnd'
        simp only [List.length_cons]
        omega

/-- C6 counterexample: folder ids derive from creation timestamps, so two
creations in the same instant duplicate an id; `deleteFolder` filters out
*every* folder with the given id, so a reachable operation sequence empties
the collection — refuting "every reachable collection state contains at least
one folder".  (Creating at instant 2 twice yields two folders `folder-2`;
after deleting `folder-1`, deleting `folder-2` removes both.) -/
theorem folder_delete_can_empty_collection :
    (runOps [StoreOp.folderCreate 2, StoreOp.folderDelete "folder-1",
      StoreOp.folderCreate 2, StoreOp.folderDelete "folder-2"]).folders = []
    ∧ ¬ 1 ≤ (runOps [StoreOp.folderCreate 2, StoreOp.folderDelete "folder-1",
        StoreOp.folderCreate 2, StoreOp.folderDelete "folder-2"]).folders.length := by
  decide

/-- C6 (amended): deleting when exactly one folder remains is a complete
no-op, and any delete on a collection whose folder ids are pairwise distinct
leaves at least one folder; the unconditional "every reachable state has ≥ 1
folder" fails only through duplicated folder ids (same-instant creations). -/
theorem folder_delete_guarded :
    (∀ (s : AppState) (folderId : String),
      s.folders.length = 1 → handleFolderDelete s folderId = s)
    ∧ (∀ (s : AppState) (folderId : String), s.folders ≠ [] →
      (s.folders.map (fun f => f.id)).Nodup →
      (handleFolderDelete s folderId).folders ≠ []) := by
  constructor
  · intro s folderId h1
    rw [handleFolderDelete, if_pos (by omega)]
  · intro s folderId hne hnd
    rw [handleFolderDelete]
    by_cases hlen : s.folders.length ≤ 1
    · rw [if_pos hlen]
      exact hne
    · rw [if_neg hlen]
      have hge := length_le_filter_ne_folder s.folders folderId hnd
      show ¬ List.filter (fun f => !(f.id == folderId)) s.folders = []
      intro hemp
      rw [hemp] at hge
      simp only [List.length_nil] at hge
      omega

/-- Witness for the amended C6 theorem: the initial single-folder state and a
two-folder state with distinct ids. -/
theorem folder_delete_guarded_instance :
    handleFolderDelete initialState "folder-1" = initialState
    ∧ (handleFolderDelete (runOps [StoreOp.folderCreate 2]) "folder-1").folders ≠ [] :=
  ⟨folder_delete_guarded.1 initialState "folder-1" (by decide),
   folder_delete_guarded.2 (runOps [StoreOp.folderCreate 2]) "folder-1"
     (by decide) (by decide)⟩

/-- Concrete fixture for C7: a conversation with id `conv-5` living in the
*second* folder. -/
def convX : Conversation :=
  { id := "conv-5", title := "既存", messages := [], documentContent := "",
    tags := [], isPinned := false, createdAt := 0, updatedAt := 0 }

/-- Concrete fixture for C7: first folder empty, second folder holds
`conv-5`. -/
def sC7 : AppState :=
  { folders :=
      [ { id := "folder-1", name := "会話", conversations := [], isExpanded := true },
        { id := "folder-2", name := "仕事", conversations := [convX], isExpanded := true } ],
    activeConversationId := none }

/-- C7 counterexample: creating a conversation at instant 5 (id `conv-5`)
while a conversation with that id already exists in a *later* folder is NOT
rejected — the duplicate check only inspects the first folder — so the store
changes and the id is duplicated across the collection. -/
theorem duplicate_id_in_later_folder_not_rejected :
    ¬ (handleNewConversation sC7 5).folders = sC7.folders
    ∧ (allConvs (handleNewConversation sC7 5).folders).countP
        (fun c => c.id == "conv-5") = 2 := by
  decide

/-- C7 (amended): conversation creation is rejected (folders unchanged) iff a
conversation with the generated id already exists in the *first* folder;
otherwise the fresh conversation is prepended to the first folder —
regardless of occurrences of the id in later folders. -/
theorem new_conversation_first_folder_check
    (s : AppState) (now : Int) (f0 : Folder) (rest : List Folder)
    (hF : s.folders = f0 :: rest) :
    ((f0.conversations.any (fun c => c.id == "conv-" ++ toString now)) = true →
      (handleNewConversation s now).folders = s.folders)
    ∧ ((f0.conversations.any (fun c => c.id == "conv-" ++ toString now)) = false →
      (handleNewConversation s now).folders
        = { f0 with conversations := newConversationAt now :: f0.conversations } :: rest) := by
  obtain ⟨fs, act⟩ := s
  simp only at hF
  subst hF
  constructor
  · intro h
    simp [handleNewConversation, h]
  · intro h
    simp [handleNewConversation, h]

/-- Witness for the amended C7 theorem at the concrete state `sC7`. -/
theorem new_conversation_first_folder_check_instance :
    (((sC7.folders.head?).getD (newFolderAt 0)).conversations.any
        (fun c => c.id == "conv-" ++ toString (5 : Int))) = false
    ∧ (handleNewConversation sC7 5).folders
        = { id := "folder-1", name := "会話",
            conversations := [newConversationAt 5], isExpanded := true }
          :: [{ id := "folder-2", name := "仕事", conversations := [convX],
                isExpanded := true }] := by
  refine ⟨by decide, ?_⟩
  have h := (new_conversation_first_folder_check sC7 5
    { id := "folder-1", name := "会話", conversations := [], isExpanded := true }
    [{ id := "folder-2", name := "仕事", conversations := [convX], isExpanded := true }]
    (by decide)).2 (by decide)
  exact h

/-- Concrete fixture for C8: conversation `a`, at the front of its folder. -/
def convA8 : Conversation :=
  { id := "a", title := "あ", messages := [], documentContent := "",
    tags := [], isPinned := false, createdAt := 0, updatedAt := 0 }

/-- Concrete fixture for C8: conversation `b`, second in its folder. -/
def convB8 : Conversation :=
  { id := "b", title := "い", messages := [], documentContent := "",
    tags := [], isPinned := false, createdAt := 0, updatedAt := 0 }

/-- Concrete fixture for C8: one folder holding `[a, b]`. -/
def foldersC8 : List Folder :=
  [{ id := "f1", name := "会話", conversations := [convA8, convB8], isExpanded := true }]

/-- C8 counterexample: moving conversation `b` to the folder that already
contains it is NOT a no-op — the source removes it and prepends it, so the
folder reorders from `[a, b]` to `[b, a]`. -/
theorem move_within_target_reorders :
    ¬ handleConversationMove foldersC8 "b" "f1" = foldersC8
    ∧ handleConversationMove foldersC8 "b" "f1"
        = [{ id := "f1", name := "会話", conversations := [convB8, convA8],
             isExpanded := true }] := by
  decide

/-- Concrete fixture for C8: conversation `c`, resident of the second
folder. -/
def convC8m : Conversation :=
  { id := "c", title := "う", messages := [], documentContent := "",
    tags := [], isPinned := false, createdAt := 0, updatedAt := 0 }

/-- Concrete fixture for C8: two folders, `[a, b]` in the first and `[c]` in
the second — used to exercise a cross-folder transfer. -/
def foldersMove : List Folder :=
  [ { id := "f1", name := "会話", conversations := [convA8, convB8], isExpanded := true },
    { id := "f2", name := "仕事", conversations := [convC8m], isExpanded := true } ]

/-- C8 (amended): `moveConversation` is unchanged when the id does not occur
anywhere.  When a conversation `c` with the id is found, the single update
removes the id from *every* folder containing it and prepends `c` to the
target folder's sequence (second clause, for all collections).  For a
conversation already in the target folder this is therefore NOT a no-op in
general: it is a no-op only when it is already at the front (`a` below) and a
reorder to the front otherwise (`b` below); the last clause shows a concrete
cross-folder transfer (`a` moved from `f1` to `f2`). -/
theorem move_conversation_behavior :
    (∀ (folders : List Folder) (convId targetFolderId : String),
      (∀ f ∈ folders, ∀ c ∈ f.conversations, ¬ c.id = convId) →
      handleConversationMove folders convId targetFolderId = folders)
    ∧ (∀ (folders : List Folder) (convId targetFolderId : String) (c : Conversation),
      (folders.filterMap fun f =>
        f.conversations.find? (fun x => x.id == convId)).getLast? = some c →
      handleConversationMove folders convId targetFolderId
        = folders.map (fun f =>
            if f.id == targetFolderId then
              { f with conversations :=
                  c :: f.conversations.filter (fun x => !(x.id == convId)) }
            else
              { f with conversations :=
                  f.conversations.filter (fun x => !(x.id == convId)) }))
    ∧ handleConversationMove foldersC8 "a" "f1" = foldersC8
    ∧ handleConversationMove foldersC8 "b" "f1"
        = [{ id := "f1", name := "会話", conversations := [convB8, convA8],
             isExpanded := true }]
    ∧ handleConversationMove foldersMove "a" "f2"
        = [ { id := "f1", name := "会話", conversations := [convB8],
              isExpanded := true },
            { id := "f2", name := "仕事", conversations := [convA8, convC8m],
              isExpanded := true } ] := by
  refine ⟨?_, ?_, by decide, by decide, by decide⟩
  · intro folders convId targetFolderId hAbsent
    have hfound : (folders.filterMap fun f =>
        f.conversations.find? (fun c => c.id == convId)) = [] := by
      apply List.filterMap_eq_nil_iff.mpr
      intro f hf
      apply List.find?_eq_none.mpr
      intro c hc
      simp [hAbsent f hf c hc]
    have h1 : ∀ f ∈ folders,
        (if f.conversations.any (fun c => c.id == convId) then
          { f with conversations := f.conversations.filter (fun c => !(c.id == convId)) }
        else f) = f := by
      intro f hf
      apply if_neg
      intro hany
      obtain ⟨c, hc, hcid⟩ := List.any_eq_true.mp hany
      exact hAbsent f hf c hc (by simpa using hcid)
    have hupd : (folders.map fun f =>
        if f.conversations.any (fun c => c.id == convId) then
          { f with conversations := f.conversations.filter (fun c => !(c.id == convId)) }
        else f) = folders := by
      calc (folders.map fun f =>
            if f.conversations.any (fun c => c.id == convId) then
              { f with conversations := f.conversations.filter (fun c => !(c.id == convId)) }
            else f)
          = folders.map id := List.map_congr_left h1
        _ = folders := List.map_id folders
    rw [handleConversationMove]
    simp only [hfound, List.getLast?_nil, hupd]
  · intro folders convId targetFolderId c hFound
    rw [handleConversationMove]
    simp only [hFound]
    rw [List.map_map]
    apply List.map_congr_left
    intro f hf
    simp only [Function.comp_apply]
    cases hany : (f.conversations.any fun x => x.id == convId) with
    | true =>
        cases htid : (f.id == targetFolderId) with
        | true => simp [htid]
        | false => simp [htid]
    | false =>
        have hfilter : f.conversations.filter (fun x => !(x.id == convId))
            = f.conversations := by
          apply List.filter_eq_self.mpr
          intro x hx
          have hx2 := List.any_eq_false.mp hany x hx
          simp only [Bool.not_eq_true] at hx2
          simp [hx2]
        cases htid : (f.id == targetFolderId) with
        | true => simp [htid, hfilter]
        | false => simp [htid, hfilter]

/-- The claim's reading of demo mode: there are exactly two keyword-triggered
override responses, i.e. two strings beyond the random five cover every
possible mock response. -/
def mockDemoTwoOverridesClaim : Prop :=
  ∃ a b : String, ∀ (messages : List RoleContent) (r : Fin 5),
    getMockResponse messages r ∈ mockResponses
    ∨ getMockResponse messages r = a ∨ getMockResponse messages r = b

/-- C10 counterexample: the demo mode has *three* keyword-triggered overrides
(悩/困, 仕事/優先, 整理/まとめ), not two — no pair of strings covers the three
pairwise-distinct override responses, none of which is in the random set. -/
theorem demo_mode_not_two_overrides : ¬ mockDemoTwoOverridesClaim := by
  rintro ⟨a, b, h⟩
  have e1 : getMockResponse [{ role := "user", content := "悩み" }] 0 = mockOverride1 := by
    decide
  have e2 : getMockResponse [{ role := "user", content := "仕事" }] 0 = mockOverride2 := by
    decide
  have e3 : getMockResponse [{ role := "user", content := "整理" }] 0 = mockOverride3 := by
    decide
  have h1 := h [{ role := "user", content := "悩み" }] 0
  have h2 := h [{ role := "user", content := "仕事" }] 0
  have h3 := h [{ role := "user", content := "整理" }] 0
  rw [e1] at h1
  rw [e2] at h2
  rw [e3] at h3
  rcases h1 with h1 | h1 | h1
  · exact absurd h1 (by decide)
  · subst h1
    rcases h2 with h2 | h2 | h2
    · exact absurd h2 (by decide)
    · exact absurd h2 (by decide)
    · subst h2
      rcases h3 with h3 | h3 | h3
      · exact absurd h3 (by decide)
      · exact absurd h3 (by decide)
      · exact absurd h3 (by decide)
  · subst h1
    rcases h2 with h2 | h2 | h2
    · exact absurd h2 (by decide)
    · subst h2
      rcases h3 with h3 | h3 | h3
      · exact absurd h3 (by decide)
      · exact absurd h3 (by decide)
      · exact absurd h3 (by decide)
    · exact absurd h2 (by decide)

/-- C10 (amended): without an API key the chat route answers from
`getMockResponse` alone — independently of the completion capability (no
provider call) — and every mock response is one of the five canned strings or
one of the *three* keyword overrides; each override fires on its keywords and
the keyword-free case selects by the random index. -/
theorem demo_mode_contract :
    (∀ (messages : List RoleContent)
      (oracle oracle2 : List RoleContent → Except String String) (r : Fin 5),
      chatRoute messages none oracle r
        = { message := getMockResponse messages r, isDemo := true,
            provider := "demo", status := 200, error := none }
      ∧ chatRoute messages none oracle r = chatRoute messages none oracle2 r)
    ∧ (∀ (messages : List RoleContent) (r : Fin 5),
      getMockResponse messages r ∈ mockResponses
      ∨ getMockResponse messages r = mockOverride1
      ∨ getMockResponse messages r = mockOverride2
      ∨ getMockResponse messages r = mockOverride3)
    ∧ getMockResponse [{ role := "user", content := "悩み" }] 0 = mockOverride1
    ∧ getMockResponse [{ role := "user", content := "仕事" }] 0 = mockOverride2
    ∧ getMockResponse [{ role := "user", content := "整理" }] 0 = mockOverride3
    ∧ getMockResponse [{ role := "user", content := "やあ" }] 2
        = "それぞれの選択肢について、メリットとデメリットを書き出してみましょうか？" := by
  refine ⟨fun messages oracle oracle2 r => ⟨rfl, rfl⟩, ?_, by decide, by decide,
    by decide, by decide⟩
  intro messages r
  rw [getMockResponse]
  split
  · exact Or.inr (Or.inl rfl)
  · split
    · exact Or.inr (Or.inr (Or.inl rfl))
    · split
      · exact Or.inr (Or.inr (Or.inr rfl))
      · exact Or.inl (List.get_mem _ _ _)

/-- Witness for the amended C8 theorem: the not-found clause at an id that
occurs nowhere, and the transfer clause at the concrete cross-folder move of
`a` from `f1` to `f2`. -/
theorem move_conversation_behavior_instance :
    handleConversationMove foldersC8 "zzz" "f1" = foldersC8
    ∧ handleConversationMove foldersMove "a" "f2"
        = foldersMove.map (fun f =>
            if f.id == "f2" then
              { f with conversations :=
                  convA8 :: f.conversations.filter (fun x => !(x.id == "a")) }
            else
              { f with conversations :=
                  f.conversations.filter (fun x => !(x.id == "a")) }) :=
  ⟨move_conversation_behavior.1 foldersC8 "zzz" "f1" (by decide),
   move_conversation_behavior.2.1 foldersMove "a" "f2" convA8 (by decide)⟩
